import Mathlib

/-!
Verification of the Personal Finance Tracker (`streamlit_app.py`).

The app keeps a session dataframe `st.session_state.df` with columns
Date, Category, Description, Amount, Type, plus two category lists.
We embed its core logic shallowly:

* a dataframe row is a `Tx`; the dataframe is a `List Tx`;
* calendar dates are modelled as day numbers (`Nat`), and the result of
  the pandas date parser on a CSV cell as `Option Nat` (`none` means
  `pd.to_datetime` raises);
* decimal amounts are modelled as rationals (`ℚ`), and the result of
  `pd.to_numeric(..., errors="coerce")` on a CSV cell as `Option ℚ`
  (`none` means the cell is missing or unparsable, i.e. NaN);
* a missing string cell (NaN) is `none`; `astype(str)` turns it into
  the literal string "nan", which `strCell` reproduces;
* the Python string methods `strip`, `lower`, `startswith` are embedded
  as `pyStrip`, `pyLower`, `pyStartsWith`, defined by structural
  recursion over the character list of the string.
-/

/-- Python `str.strip` removes these whitespace characters at the ends. -/
def isSpaceChar (c : Char) : Bool :=
  c == ' ' || c == '\t' || c == '\n' || c == '\r'

/-- Drop the leading whitespace of a character list. -/
def dropLeadingSpaces : List Char → List Char
  | [] => []
  | c :: cs => if isSpaceChar c then dropLeadingSpaces cs else c :: cs

/-- Python `str.strip()`: remove whitespace at both ends. -/
def pyStrip (s : String) : String :=
  String.mk ((dropLeadingSpaces ((dropLeadingSpaces s.data).reverse)).reverse)

/-- Lowercase one ASCII character, as Python `str.lower` does on the
letters appearing in this app. -/
def lowerChar (c : Char) : Char :=
  if 65 ≤ c.toNat ∧ c.toNat ≤ 90 then Char.ofNat (c.toNat + 32) else c

/-- Python `str.lower()`. -/
def pyLower (s : String) : String :=
  String.mk (s.data.map lowerChar)

/-- Python `s.startswith(p)`. -/
def pyStartsWith (s p : String) : Bool :=
  p.data.isPrefixOf s.data

/-- A ledger record as stored in `st.session_state.df`. The field `typ`
models the dataframe column named Type (which holds a string in the app). -/
@[ext]
structure Tx where
  date : Nat
  category : String
  description : String
  amount : ℚ
  typ : String
deriving DecidableEq

/-- One row of an uploaded CSV as pandas hands it to `_normalize_csv`,
with the pandas cell parsers abstracted: `date = some d` when
`pd.to_datetime` succeeds on the cell, `amount = some q` when
`pd.to_numeric` yields the number `q` (otherwise it coerces to NaN),
and a string cell is `none` when missing (NaN). -/
structure RawRow where
  date : Option Nat
  category : Option String
  description : Option String
  amount : Option ℚ
  typ : Option String
deriving DecidableEq

/-- An uploaded CSV table: its header and its rows. The rows carry the
cells of the five logical columns; `cols` is the raw header used by the
column-resolution step of `_normalize_csv`. -/
structure RawTable where
  cols : List String
  rows : List RawRow
deriving DecidableEq

/-- The required logical column names of `_normalize_csv`
(`required = {"date": "Date", ...}`). -/
def requiredCols : List String :=
  ["date", "category", "description", "amount", "type"]

/-- Column resolution of `_normalize_csv`: build `col_map` from
stripped, lowercased header names and require all five logical columns
to be matched (`if len(rename) < 5: return None, error`). -/
def hasAllCols (cols : List String) : Bool :=
  requiredCols.all (fun req => cols.any (fun c => pyLower (pyStrip c) == req))

/-- Effect of `astype(str)` on a cell: a missing cell (NaN) stringifies
to "nan". -/
def strCell : Option String → String
  | some s => s
  | none => "nan"

/-- Type normalization of `_normalize_csv`:
`type_upper.map(lambda t: "Income" if t.startswith("i") or t == "income" else "Expense")`
applied to the stripped, lowercased cell string. -/
def normType (c : Option String) : String :=
  if pyStartsWith (pyLower (pyStrip (strCell c))) ("i")
      || pyLower (pyStrip (strCell c)) == "income"
  then ("Income") else ("Expense")

/-- Sign reconciliation loop of `_normalize_csv`: an Expense amount
above zero is negated, an Income amount below zero is replaced by its
absolute value, anything else is kept. -/
def reconcile (typ : String) (a : ℚ) : ℚ :=
  if typ = "Expense" ∧ 0 < a then -a
  else if typ = "Income" ∧ a < 0 then |a| else a

/-- Per-row normalization of `_normalize_csv`: dates come from the
(already checked) date parser, category is stringified and stripped,
description is stringified, the amount falls back to 0 when unparsable
(`pd.to_numeric(..., errors="coerce").fillna(0)`), and Type and the
amount sign are normalized. -/
def txOfRow (r : RawRow) : Tx :=
  { date := r.date.getD 0
    category := pyStrip (strCell r.category)
    description := strCell r.description
    amount := reconcile (normType r.typ) (r.amount.getD 0)
    typ := normType r.typ }

/-- Failure modes of `_normalize_csv`: the explicit missing-columns
error it returns, and the exception `pd.to_datetime` raises on an
unparsable date (caught by the import handler). -/
inductive NormError where
  | missingColumns : NormError
  | unparsableDate : NormError
deriving DecidableEq

/-- The function `_normalize_csv`: check the header, parse the date column (raising
if any cell fails), then normalize every row. -/
def normalize_csv (t : RawTable) : Except NormError (List Tx) :=
  if hasAllCols t.cols then
    if t.rows.all (fun r => r.date.isSome) then
      Except.ok (t.rows.map txOfRow)
    else Except.error NormError.unparsableDate
  else Except.error NormError.missingColumns

/-- A stored string field written by `to_csv` and read back by
`read_csv`: an empty field comes back as a missing cell (NaN). -/
def strField (s : String) : Option String :=
  if s = "" then none else some s

/-- The fixed header `to_csv` emits for the session dataframe. -/
def exportCols : List String :=
  ["Date", "Category", "Description", "Amount", "Type"]

/-- One exported row as it comes back from `read_csv`: date and amount
re-parse to their stored values, string fields survive unless empty. -/
def rowOfTx (x : Tx) : RawRow :=
  { date := some x.date
    category := strField x.category
    description := strField x.description
    amount := some x.amount
    typ := strField x.typ }

/-- CSV export (`st.session_state.df.to_csv(index=False)`), seen through
a later `read_csv`: the five columns in fixed order, amounts keeping
their stored sign. -/
def serialize (l : List Tx) : RawTable :=
  { cols := exportCols, rows := l.map rowOfTx }

/-- Sanity: the exported header satisfies column resolution. -/
theorem hasAllCols_exportCols : hasAllCols exportCols = true := by decide

/-- Statistics: `df[df["Type"] == "Income"]["Amount"].sum()`. -/
def total_income (l : List Tx) : ℚ :=
  ((l.filter (fun x => x.typ == "Income")).map Tx.amount).sum

/-- Statistics: `abs(df[df["Type"] == "Expense"]["Amount"].sum())`. -/
def total_expense (l : List Tx) : ℚ :=
  |((l.filter (fun x => x.typ == "Expense")).map Tx.amount).sum|

/-- Statistics: `balance = total_income - total_expense`. -/
def balance (l : List Tx) : ℚ :=
  total_income l - total_expense l

/-- The expense rows feeding the by-category chart:
`df[df["Type"] == "Expense"]`. -/
def expenseRows (l : List Tx) : List Tx :=
  l.filter (fun x => x.typ == "Expense")

/-- The distinct categories of a row list in first-appearance order.
(pandas `groupby` sorts its keys; the claims read the result as a map,
so the ordering of the pairs is immaterial.) -/
def distinctCats : List Tx → List String
  | [] => []
  | x :: rest => x.category :: (distinctCats rest).filter (fun d => !(d == x.category))

/-- Spending by category:
`expenses["Amount"] = expenses["Amount"].abs(); expenses.groupby("Category")["Amount"].sum()`
as a list of (category, total) pairs. -/
def per_category_expense (l : List Tx) : List (String × ℚ) :=
  (distinctCats (expenseRows l)).map
    (fun c =>
      (c, (((expenseRows l).filter (fun x => x.category == c)).map
            (fun x => |x.amount|)).sum))

/-- The manual add handler: the amount field is
`trans_amount if trans_type == "Income" else -abs(trans_amount)`, the
description defaults to "-" (`trans_description or "-"`), and the new
row is prepended (`pd.concat([df_new, st.session_state.df])`). The
amount input comes from `st.number_input(min_value=0.0)`. -/
def addTransaction (df : List Tx) (d : Nat) (c ds : String) (q : ℚ) (ty : String) :
    List Tx :=
  { date := d
    category := c
    description := if ds = "" then ("-") else ds
    amount := if ty = "Income" then q else -|q|
    typ := ty } :: df

/-- The in-place edit path: `st.session_state.df = edited_df`. The
handler stores whatever table the data editor returns, verbatim. -/
def applyEdit (_df edited : List Tx) : List Tx :=
  edited

/-- The delete handler: after `reset_index(drop=True)` every row is
labelled with its position 0..n-1 (`List.enum`), then
`df.drop(df.index[k])` removes every row whose label equals `k`, and a
final `reset_index(drop=True)` forgets the labels. -/
def deleteTransaction (l : List Tx) (k : Nat) : List Tx :=
  ((l.enum.filter (fun p => p.1 != k)).map Prod.snd)

/-- The default expense categories. -/
def DEFAULT_EXPENSE_CATEGORIES : List String :=
  ["Electric Bills", "Groceries", "Rent / Mortgage", "Transport",
   "Entertainment", "Dining Out", "Subscriptions", "Healthcare",
   "Shopping", "Utilities"]

/-- The default income categories. -/
def DEFAULT_INCOME_CATEGORIES : List String :=
  ["Salary", "Other"]

/-- The per-session stored state: the transactions dataframe and the
two category registries. -/
structure Session where
  df : List Tx
  expense_categories : List String
  income_categories : List String
deriving DecidableEq

/-- The state a fresh session starts from. -/
def initialSession : Session :=
  { df := []
    expense_categories := DEFAULT_EXPENSE_CATEGORIES
    income_categories := DEFAULT_INCOME_CATEGORIES }

/-- The add-category handler. The guard
`if st.button(...) and new_cat and new_cat.strip():` skips silently on a
blank name; otherwise the stripped name is appended to the chosen list
unless already present. The second component is the message the handler
displays (`st.success` / `st.warning`), `none` when it shows nothing. -/
def addCategory (s : Session) (cat_type : String) (new_cat : String) :
    Session × Option String :=
  if new_cat = "" ∨ pyStrip new_cat = "" then (s, none)
  else if pyStrip new_cat ∉
      (if cat_type = "Expense" then s.expense_categories else s.income_categories) then
    (if cat_type = "Expense" then
       { s with expense_categories := s.expense_categories ++ [pyStrip new_cat] }
     else
       { s with income_categories := s.income_categories ++ [pyStrip new_cat] },
     some ("Added **" ++ pyStrip new_cat ++ "** to " ++ cat_type ++ " categories."))
  else (s, some ("That category already exists."))

/-- The uploaded file as the import handler sees it: either
`pd.read_csv` raises, or it yields a table. -/
inductive ImportFile where
  | unreadable : ImportFile
  | table : RawTable → ImportFile

/-- The import-mode radio: "Replace all" or "Append to current". -/
inductive ImportMode where
  | replaceAll : ImportMode
  | appendToCurrent : ImportMode
deriving DecidableEq

/-- What the import handler reports: the success count, the caught
read exception (`st.error("Could not read CSV: ...")`), or the
normalization failure (`st.error(err)` / the caught date exception). -/
inductive ImportResult where
  | loaded : Nat → ImportResult
  | readFailed : ImportResult
  | normFailed : NormError → ImportResult
deriving DecidableEq

/-- Whether an import attempt succeeded. -/
def isLoaded : ImportResult → Bool
  | ImportResult.loaded _ => true
  | _ => false

/-- Category registration of one imported row: append its category to
the list of its kind when not already present. -/
def registerRow (s : Session) (x : Tx) : Session :=
  if x.typ = "Expense" ∧ x.category ∉ s.expense_categories then
    { s with expense_categories := s.expense_categories ++ [x.category] }
  else if x.typ = "Income" ∧ x.category ∉ s.income_categories then
    { s with income_categories := s.income_categories ++ [x.category] }
  else s

/-- The import handler: read the file, normalize it, and only on
success install the rows (replace or append) and register their
categories. Every failure is reported before any state is touched. -/
def importCsv (s : Session) (f : ImportFile) (mode : ImportMode) :
    Session × ImportResult :=
  match f with
  | ImportFile.unreadable => (s, ImportResult.readFailed)
  | ImportFile.table t =>
    match normalize_csv t with
    | Except.error e => (s, ImportResult.normFailed e)
    | Except.ok rows =>
      (rows.foldl registerRow
        { s with df := match mode with
                       | ImportMode.replaceAll => rows
                       | ImportMode.appendToCurrent => s.df ++ rows },
       ImportResult.loaded rows.length)

/-- The strict sign convention the spec states for stored records. -/
def signInvariant (x : Tx) : Prop :=
  x.amount < 0 ↔ x.typ = "Expense"

/-- The sign convention the code actually maintains on the add and
the import paths: Expense rows nonpositive, Income rows nonnegative. -/
def weakSignInvariant (x : Tx) : Prop :=
  (x.typ = "Expense" → x.amount ≤ 0) ∧ (x.typ = "Income" → 0 ≤ x.amount)

/-- A successful `_normalize_csv` returns exactly the per-row
normalization of the input rows. -/
theorem normalize_csv_ok (t : RawTable) (l : List Tx)
    (ht : normalize_csv t = Except.ok l) : l = t.rows.map txOfRow := by
  unfold normalize_csv at ht
  by_cases h1 : hasAllCols t.cols = true
  · rw [if_pos h1] at ht
    by_cases h2 : (t.rows.all (fun r => r.date.isSome)) = true
    · rw [if_pos h2] at ht
      simp only [Except.ok.injEq] at ht
      exact ht.symm
    · rw [if_neg h2] at ht
      cases ht
  · rw [if_neg h1] at ht
    cases ht

/-- The normalized Type is one of the two closed kind strings. -/
theorem normType_cases (c : Option String) :
    normType c = "Income" ∨ normType c = "Expense" := by
  unfold normType
  by_cases h : (pyStartsWith (pyLower (pyStrip (strCell c))) ("i")
      || pyLower (pyStrip (strCell c)) == "income") = true
  · rw [if_pos h]
    exact Or.inl rfl
  · rw [if_neg h]
    exact Or.inr rfl

/-- Reconciled Expense amounts are nonpositive. -/
theorem reconcile_expense (a : ℚ) : reconcile ("Expense") a ≤ 0 := by
  unfold reconcile
  by_cases h : (0 : ℚ) < a
  · rw [if_pos ⟨rfl, h⟩]
    linarith
  · rw [if_neg (fun hc => h hc.2), if_neg (fun hc => absurd hc.1 (by decide))]
    exact le_of_not_lt h

/-- Reconciled Income amounts are nonnegative. -/
theorem reconcile_income (a : ℚ) : 0 ≤ reconcile ("Income") a := by
  unfold reconcile
  by_cases h : a < 0
  · rw [if_neg (fun hc => absurd hc.1 (by decide)), if_pos ⟨rfl, h⟩]
    exact abs_nonneg a
  · rw [if_neg (fun hc => absurd hc.1 (by decide)), if_neg (fun hc => h hc.2)]
    exact le_of_not_lt h

/-- Every row produced by the import normalization satisfies the weak
sign convention. -/
theorem txOfRow_weak (r : RawRow) : weakSignInvariant (txOfRow r) := by
  constructor
  · intro hE
    have hE2 : normType r.typ = "Expense" := hE
    show reconcile (normType r.typ) (r.amount.getD 0) ≤ 0
    rw [hE2]
    exact reconcile_expense (r.amount.getD 0)
  · intro hI
    have hI2 : normType r.typ = "Income" := hI
    show 0 ≤ reconcile (normType r.typ) (r.amount.getD 0)
    rw [hI2]
    exact reconcile_income (r.amount.getD 0)

/-- The three-row ledger of the statistics example in the spec:
Income +1000, Expense -200 (Groceries), Expense -50 (Transport). -/
def exampleLedger : List Tx :=
  [{ date := 0, category := "Salary", description := "-",
     amount := 1000, typ := "Income" },
   { date := 0, category := "Groceries", description := "-",
     amount := -200, typ := "Expense" },
   { date := 0, category := "Transport", description := "-",
     amount := -50, typ := "Expense" }]

/-- C2: the statistics of the empty ledger are all zero with an empty
per-category map and no failure, and on the spec example
[Income +1000, Expense -200 Groceries, Expense -50 Transport] they are
total_income = 1000, total_expense = 250, balance = 750 and
per-category expenses Groceries 200 and Transport 50. -/
theorem statistics_empty_and_example :
    total_income ([] : List Tx) = 0 ∧
    total_expense ([] : List Tx) = 0 ∧
    balance ([] : List Tx) = 0 ∧
    per_category_expense ([] : List Tx) = [] ∧
    total_income exampleLedger = 1000 ∧
    total_expense exampleLedger = 250 ∧
    balance exampleLedger = 750 ∧
    per_category_expense exampleLedger = [("Groceries", 200), ("Transport", 50)] := by
  refine ⟨?_, ?_, ?_, ?_, ?_, ?_, ?_, ?_⟩
  · simp [total_income]
  · simp [total_expense]
  · simp [balance, total_income, total_expense]
  · simp [per_category_expense, expenseRows, distinctCats]
  · simp [total_income, exampleLedger]
  · simp [total_expense, exampleLedger]
    norm_num
  · simp [balance, total_income, total_expense, exampleLedger]
    norm_num
  · simp [per_category_expense, expenseRows, distinctCats, exampleLedger]

/-- C9: during CSV import, the Type cell is normalized exactly by the
"i"-prefix rule on its stripped, lowercased stringification: a leading
"i" maps to Income, everything else (including missing cells, which
stringify to "nan") maps to Expense. -/
theorem import_type_normalization_rule (r : RawRow) :
    (txOfRow r).typ =
      (if pyStartsWith (pyLower (pyStrip (strCell r.typ))) ("i")
       then ("Income") else ("Expense")) := by
  show normType r.typ = _
  unfold normType
  cases hs : pyStartsWith (pyLower (pyStrip (strCell r.typ))) ("i") with
  | true => simp [hs]
  | false =>
    simp only [hs, Bool.false_or, if_neg (Bool.false_ne_true)]
    cases ht : (pyLower (pyStrip (strCell r.typ)) == "income") with
    | true =>
      have h1 := eq_of_beq ht
      rw [h1] at hs
      exact absurd hs (by decide)
    | false => simp

/-- C10: every table accepted by `_normalize_csv` yields rows whose
Type is exactly "Income" or "Expense": the kind enumeration is closed
at the import boundary. -/
theorem import_type_closed (t : RawTable) (l : List Tx)
    (ht : normalize_csv t = Except.ok l) :
    ∀ x ∈ l, x.typ = "Income" ∨ x.typ = "Expense" := by
  intro x hx
  rw [normalize_csv_ok t l ht] at hx
  rcases List.mem_map.mp hx with ⟨r, _, rfl⟩
  exact normType_cases r.typ

/-- A table whose single row has a missing Type cell: it stringifies to
"nan" and must import as an Expense row. -/
def nanTable : RawTable :=
  { cols := ["Date", "Category", "Description", "Amount", "Type"]
    rows := [{ date := some 3, category := some ("Misc"), description := none,
               amount := some 7, typ := none }] }

/-- The import of `nanTable`: the "nan" Type maps to Expense and the
amount is negated accordingly. -/
def nanOut : List Tx :=
  [{ date := 3, category := "Misc", description := "nan",
     amount := -7, typ := "Expense" }]

/-- Witness for C10 at a concrete input whose Type cell is missing. -/
theorem import_type_closed_example :
    normalize_csv nanTable = Except.ok nanOut ∧
    ∀ x ∈ nanOut, x.typ = "Income" ∨ x.typ = "Expense" := by
  have h : normalize_csv nanTable = Except.ok nanOut := by rfl
  exact ⟨h, import_type_closed nanTable nanOut h⟩

/-- C4: on every accepted table the import output is the per-row
normalization, and each row reconciles the parsed amount with the
normalized kind: a positive amount on an Expense row is negated, a
negative amount on an Income row is replaced by its absolute value. -/
theorem import_sign_reconciliation (t : RawTable) (l : List Tx)
    (ht : normalize_csv t = Except.ok l) :
    l = t.rows.map txOfRow ∧
    ∀ r ∈ t.rows,
      (normType r.typ = "Expense" → 0 < r.amount.getD 0 →
          (txOfRow r).amount = -(r.amount.getD 0)) ∧
      (normType r.typ = "Income" → r.amount.getD 0 < 0 →
          (txOfRow r).amount = |r.amount.getD 0|) := by
  refine ⟨normalize_csv_ok t l ht, ?_⟩
  intro r _
  constructor
  · intro hE ha
    show reconcile (normType r.typ) (r.amount.getD 0) = _
    rw [hE]
    unfold reconcile
    rw [if_pos ⟨rfl, ha⟩]
  · intro hI ha
    show reconcile (normType r.typ) (r.amount.getD 0) = _
    rw [hI]
    unfold reconcile
    rw [if_neg (fun hc => absurd hc.1 (by decide)), if_pos ⟨rfl, ha⟩]

/-- The one-row table of the sign-reconciliation example: Amount 200,
Type "expense" (lower case header to exercise column resolution). -/
def importTable : RawTable :=
  { cols := ["date", "category", "description", "amount", "type"]
    rows := [{ date := some 10, category := some ("Groceries"),
               description := some ("weekly"), amount := some 200,
               typ := some ("expense") }] }

/-- The import of `importTable`: the row comes out with amount -200. -/
def importOut : List Tx :=
  [{ date := 10, category := "Groceries", description := "weekly",
     amount := -200, typ := "Expense" }]

/-- Witness for C4: the row with Amount 200 and Type "expense" imports
as a transaction with amount -200, by sign reconciliation. -/
theorem import_sign_reconciliation_example :
    normalize_csv importTable = Except.ok importOut ∧
    (importOut = importTable.rows.map txOfRow ∧
     ∀ r ∈ importTable.rows,
       (normType r.typ = "Expense" → 0 < r.amount.getD 0 →
           (txOfRow r).amount = -(r.amount.getD 0)) ∧
       (normType r.typ = "Income" → r.amount.getD 0 < 0 →
           (txOfRow r).amount = |r.amount.getD 0|)) := by
  have h : normalize_csv importTable = Except.ok importOut := by rfl
  exact ⟨h, import_sign_reconciliation importTable importOut h⟩

/-- C1 counterexample: the strict invariant (amount < 0 iff Expense,
zero counting as the Income side) already fails on the manual add path,
at the zero-amount Expense input the form admits: the stored row has
amount 0 and kind Expense. -/
theorem add_zero_expense_breaks_strict_invariant :
    ¬ ∀ x ∈ addTransaction [] 0 ("Groceries") ("bill") 0 ("Expense"),
        (x.amount < 0 ↔ x.typ = "Expense") := by
  intro h
  have hx := h { date := 0, category := "Groceries", description := "bill",
                 amount := -|0|, typ := "Expense" } (by
    unfold addTransaction
    simp)
  have h0 : (-|(0:ℚ)| : ℚ) < 0 := hx.mpr rfl
  norm_num at h0

/-- C1 (amended): the weak sign convention (Expense rows nonpositive,
Income rows nonnegative) holds for every row after the manual add
handler (whose amount input is nonnegative) and after CSV import. The
strict iff fails only at zero amounts, and the in-place edit path
stores the edited table verbatim, enforcing nothing. -/
theorem add_and_import_weak_sign_invariant
    (df : List Tx) (d : Nat) (c ds : String) (q : ℚ) (ty : String)
    (hq : 0 ≤ q) (hdf : ∀ x ∈ df, weakSignInvariant x)
    (t : RawTable) (l : List Tx) (ht : normalize_csv t = Except.ok l) :
    (∀ x ∈ addTransaction df d c ds q ty, weakSignInvariant x) ∧
    (∀ x ∈ l, weakSignInvariant x) := by
  constructor
  · intro x hx
    rw [addTransaction, List.mem_cons] at hx
    rcases hx with h | h
    · subst h
      constructor
      · intro hE
        have hE2 : ty = "Expense" := hE
        show (if ty = "Income" then q else -|q|) ≤ 0
        rw [if_neg (fun hI => absurd (hE2.symm.trans hI) (by decide))]
        exact neg_nonpos.mpr (abs_nonneg q)
      · intro hI
        have hI2 : ty = "Income" := hI
        show 0 ≤ (if ty = "Income" then q else -|q|)
        rw [if_pos hI2]
        exact hq
    · exact hdf x h
  · intro x hx
    rw [normalize_csv_ok t l ht] at hx
    rcases List.mem_map.mp hx with ⟨r, _, rfl⟩
    exact txOfRow_weak r

/-- Witness for the amended C1: a concrete Expense add with input 75 on
an empty ledger, and the concrete import of `importTable`. -/
theorem add_and_import_weak_sign_invariant_example :
    ((0:ℚ) ≤ 75 ∧ (∀ x ∈ ([] : List Tx), weakSignInvariant x) ∧
      normalize_csv importTable = Except.ok importOut) ∧
    ((∀ x ∈ addTransaction [] 1 ("Transport") ("bus") 75 ("Expense"),
        weakSignInvariant x) ∧
     (∀ x ∈ importOut, weakSignInvariant x)) := by
  have hnil : ∀ x ∈ ([] : List Tx), weakSignInvariant x := by
    intro x hx
    exact absurd hx (List.not_mem_nil x)
  have himp : normalize_csv importTable = Except.ok importOut := by rfl
  exact ⟨⟨by norm_num, hnil, himp⟩,
    add_and_import_weak_sign_invariant [] 1 ("Transport") ("bus") 75 ("Expense")
      (by norm_num) hnil importTable importOut himp⟩

/-- One exported row re-imports to the identical record, provided the
record has a closed kind, a nonzero sign-consistent amount, a stripped
nonempty category and a nonempty description. -/
theorem export_import_row (x : Tx)
    (hty : x.typ = "Income" ∨ x.typ = "Expense")
    (hsign : x.amount < 0 ↔ x.typ = "Expense")
    (hcat : pyStrip x.category = x.category) (hcne : x.category ≠ "")
    (hdesc : x.description ≠ "") :
    txOfRow (rowOfTx x) = x := by
  obtain ⟨d, c, ds, a, ty⟩ := x
  dsimp only at hty hsign hcat hcne hdesc
  have htypeq : normType (strField ty) = ty := by
    rcases hty with h | h
    · subst h
      decide
    · subst h
      decide
  have hD : reconcile ty a = a := by
    rcases hty with h | h
    · subst h
      have hnlt : ¬ a < 0 := fun hlt => absurd (hsign.mp hlt) (by decide)
      unfold reconcile
      rw [if_neg (fun hc => absurd hc.1 (by decide)),
        if_neg (fun hc => hnlt hc.2)]
    · subst h
      have hlt : a < 0 := hsign.mpr rfl
      unfold reconcile
      rw [if_neg (fun hc => absurd hc.2 (asymm hlt)),
        if_neg (fun hc => absurd hc.1 (by decide))]
  simp only [txOfRow, rowOfTx, Option.getD_some, htypeq, hD]
  simp only [strField, if_neg hcne, if_neg hdesc, strCell, hcat]

/-- Exporting then importing a list of such records reproduces it. -/
theorem export_import_rows (l : List Tx)
    (h : ∀ x ∈ l, (x.typ = "Income" ∨ x.typ = "Expense") ∧ x.amount ≠ 0 ∧
          (x.amount < 0 ↔ x.typ = "Expense") ∧
          pyStrip x.category = x.category ∧ x.category ≠ "" ∧
          x.description ≠ "") :
    (l.map rowOfTx).map txOfRow = l := by
  induction l with
  | nil => rfl
  | cons a t ih =>
    simp only [List.map_cons]
    obtain ⟨h1, _, h3, h4, h5, h6⟩ := h a (List.mem_cons_self a t)
    rw [export_import_row a h1 h3 h4 h5 h6,
      ih (fun x hx => h x (List.mem_cons_of_mem a hx))]

/-- C3 (amended): re-importing an exported ledger reproduces it exactly
(hence as a multiset), for every ledger whose records satisfy the sign
invariant with a closed kind, have nonzero amounts, stripped nonempty
categories, and nonempty descriptions. Without the sign invariant the
round trip fails: import re-reconciles signs. -/
theorem export_import_roundtrip (l : List Tx)
    (h : ∀ x ∈ l, (x.typ = "Income" ∨ x.typ = "Expense") ∧ x.amount ≠ 0 ∧
          (x.amount < 0 ↔ x.typ = "Expense") ∧
          pyStrip x.category = x.category ∧ x.category ≠ "" ∧
          x.description ≠ "") :
    normalize_csv (serialize l) = Except.ok l := by
  have hdates : ((serialize l).rows.all (fun r => r.date.isSome)) = true := by
    rw [List.all_eq_true]
    intro r hr
    rcases List.mem_map.mp hr with ⟨x, _, rfl⟩
    rfl
  have hcols : hasAllCols (serialize l).cols = true := hasAllCols_exportCols
  rw [normalize_csv, if_pos hcols, if_pos hdates]
  show Except.ok ((l.map rowOfTx).map txOfRow) = _
  rw [export_import_rows l h]

/-- A one-row ledger breaking the sign invariant: a positive Expense
amount, as the unvalidated edit path can store. Its amount is nonzero. -/
def cexLedger : List Tx :=
  [{ date := 0, category := "Groceries", description := "x",
     amount := 50, typ := "Expense" }]

/-- The record exporting and re-importing `cexLedger` actually yields:
its amount has been negated by sign reconciliation. -/
def cexTx : Tx :=
  { date := 0, category := "Groceries", description := "x",
    amount := -50, typ := "Expense" }

/-- The full result of re-importing the export of `cexLedger`. -/
def cexOut : List Tx :=
  [cexTx]

/-- C3 counterexample: `cexLedger` has no zero amounts, yet exporting
and re-importing it does not reproduce its multiset of transactions. -/
theorem roundtrip_fails_on_positive_expense :
    (∀ x ∈ cexLedger, x.amount ≠ 0) ∧
    normalize_csv (serialize cexLedger) = Except.ok cexOut ∧
    (cexOut : Multiset Tx) ≠ (cexLedger : Multiset Tx) := by
  refine ⟨?_, by rfl, ?_⟩
  · intro x hx
    rw [cexLedger, List.mem_singleton] at hx
    subst hx
    norm_num
  · intro hm
    have hperm := Multiset.coe_eq_coe.mp hm
    have hmem : cexTx ∈ cexLedger := by
      apply hperm.mem_iff.mp
      rw [cexOut]
      exact List.mem_singleton_self cexTx
    rw [cexLedger, List.mem_singleton] at hmem
    have h3 : (-50 : ℚ) = 50 := congrArg Tx.amount hmem
    norm_num at h3

/-- A two-row well-formed ledger for the round-trip witness. -/
def okLedger : List Tx :=
  [{ date := 5, category := "Groceries", description := "milk",
     amount := -20, typ := "Expense" },
   { date := 6, category := "Salary", description := "pay",
     amount := 1000, typ := "Income" }]

/-- Witness for the amended C3 at `okLedger`. -/
theorem export_import_roundtrip_example :
    (∀ x ∈ okLedger, (x.typ = "Income" ∨ x.typ = "Expense") ∧ x.amount ≠ 0 ∧
        (x.amount < 0 ↔ x.typ = "Expense") ∧
        pyStrip x.category = x.category ∧ x.category ≠ "" ∧
        x.description ≠ "") ∧
    normalize_csv (serialize okLedger) = Except.ok okLedger := by
  have h : ∀ x ∈ okLedger, (x.typ = "Income" ∨ x.typ = "Expense") ∧ x.amount ≠ 0 ∧
      (x.amount < 0 ↔ x.typ = "Expense") ∧
      pyStrip x.category = x.category ∧ x.category ≠ "" ∧
      x.description ≠ "" := by
    intro x hx
    rw [okLedger, List.mem_cons, List.mem_singleton] at hx
    rcases hx with rfl | rfl
    · refine ⟨Or.inr rfl, by norm_num, ?_, by decide, by decide, by decide⟩
      constructor
      · intro _
        rfl
      · intro _
        norm_num
    · refine ⟨Or.inl rfl, by norm_num, ?_, by decide, by decide, by decide⟩
      constructor
      · intro hlt
        norm_num at hlt
      · intro hE
        exact absurd hE (by decide)
  exact ⟨h, export_import_roundtrip okLedger h⟩

/-- The position labels attached by `reset_index` carry the rows back
unchanged. -/
theorem map_snd_enumFrom {α : Type} (l : List α) :
    ∀ n, (List.enumFrom n l).map Prod.snd = l := by
  induction l with
  | nil =>
    intro n
    rfl
  | cons a t ih =>
    intro n
    simp only [List.enumFrom, List.map_cons]
    rw [ih]

/-- Dropping a label smaller than every label in the enumeration drops
nothing. -/
theorem filter_ne_enumFrom {α : Type} (l : List α) :
    ∀ n m, m < n →
      (List.enumFrom n l).filter (fun p => p.1 != m) = List.enumFrom n l := by
  induction l with
  | nil =>
    intro n m _
    rfl
  | cons a t ih =>
    intro n m hm
    simp only [List.enumFrom]
    rw [List.filter_cons, if_pos (by simpa using Nat.ne_of_gt hm),
      ih (n + 1) m (Nat.lt_succ_of_lt hm)]

/-- Dropping the label `n + k` from an enumeration starting at `n`
removes exactly the element at position `k`. -/
theorem enumFrom_drop_label {α : Type} (l : List α) :
    ∀ n k, k < l.length →
      ((List.enumFrom n l).filter (fun p => p.1 != n + k)).map Prod.snd =
        l.take k ++ l.drop (k + 1) := by
  induction l with
  | nil =>
    intro n k hk
    exact absurd hk (Nat.not_lt_zero k)
  | cons a t ih =>
    intro n k hk
    cases k with
    | zero =>
      simp only [List.enumFrom]
      rw [List.filter_cons, if_neg (by simp),
        filter_ne_enumFrom t (n + 1) (n + 0) (by omega),
        map_snd_enumFrom]
      simp
    | succ k2 =>
      simp only [List.enumFrom]
      rw [List.filter_cons, if_pos (by simp)]
      simp only [List.map_cons]
      have := ih (n + 1) k2 (by simpa using Nat.lt_of_succ_lt_succ hk)
      rw [show n + 1 + k2 = n + (k2 + 1) by omega] at this
      rw [this]
      simp [List.take, List.drop]

/-- C5: for every position `k < n`, the delete handler removes exactly
the record at position `k` of the contiguous 0..n-1 positions: the
result is the prefix before `k` followed by the suffix after `k`, of
length n - 1. -/
theorem delete_removes_exactly_position_k (l : List Tx) (k : Nat)
    (hk : k < l.length) :
    deleteTransaction l k = l.take k ++ l.drop (k + 1) ∧
    (deleteTransaction l k).length = l.length - 1 := by
  have h1 : deleteTransaction l k = l.take k ++ l.drop (k + 1) := by
    unfold deleteTransaction
    have h0 := enumFrom_drop_label l 0 k hk
    simpa [List.enum] using h0
  refine ⟨h1, ?_⟩
  rw [h1, List.length_append, List.length_take, List.length_drop,
    Nat.min_eq_left (Nat.le_of_lt hk)]
  omega

/-- Witness for C5: deleting position 1 of the three-row example
ledger removes exactly its middle row. -/
theorem delete_removes_exactly_position_k_example :
    1 < exampleLedger.length ∧
    (deleteTransaction exampleLedger 1 =
       exampleLedger.take 1 ++ exampleLedger.drop 2 ∧
     (deleteTransaction exampleLedger 1).length = exampleLedger.length - 1) :=
  ⟨by decide, delete_removes_exactly_position_k exampleLedger 1 (by decide)⟩

/-- C6: CSV import is atomic: whenever the import handler does not
report a successful load (unreadable file, missing columns, or a date
parse exception), the stored session - ledger and both category
registries - is returned exactly as it was. -/
theorem import_failure_preserves_session (s : Session) (f : ImportFile)
    (mode : ImportMode)
    (h : isLoaded (importCsv s f mode).2 = false) :
    (importCsv s f mode).1 = s := by
  cases f with
  | unreadable => rfl
  | table t =>
    simp only [importCsv] at h ⊢
    cases hn : normalize_csv t with
    | error e =>
      rfl
    | ok rows =>
      rw [hn] at h
      simp [isLoaded] at h

/-- A table missing most required columns. -/
def badTable : RawTable :=
  { cols := ["Date", "Amount"], rows := [] }

/-- Witness for C6: importing `badTable` into the initial session fails
on column resolution and leaves the session untouched. -/
theorem import_failure_preserves_session_example :
    isLoaded (importCsv initialSession (ImportFile.table badTable)
        ImportMode.replaceAll).2 = false ∧
    (importCsv initialSession (ImportFile.table badTable)
        ImportMode.replaceAll).1 = initialSession :=
  ⟨by decide,
   import_failure_preserves_session initialSession (ImportFile.table badTable)
     ImportMode.replaceAll (by decide)⟩

/-- A session whose expense registry contains a blank name, as a CSV
load can create by registering a whitespace-only Category cell
(stripped to ""). -/
def blankCatSession : Session :=
  { df := []
    expense_categories := ["Groceries", ""]
    income_categories := ["Salary"] }

/-- C7 counterexample: the stripped form of "   " is blank and already
present in the expense set of `blankCatSession`, yet the add handler
does not report the duplicate warning: its blank-name guard fires
first and shows nothing. (The registry is left unchanged, as claimed.) -/
theorem duplicate_blank_category_reports_nothing :
    pyStrip ("   ") ∈ blankCatSession.expense_categories ∧
    addCategory blankCatSession ("Expense") ("   ") ≠
      (blankCatSession, some ("That category already exists.")) := by
  constructor
  · decide
  · decide

/-- C7 (amended): for every session and every name whose stripped form
is nonblank and already present in the list of the chosen kind, the add
handler leaves the whole session (both category sequences) unchanged
and reports the duplicate warning. A name that strips to blank instead
hits the silent empty-name guard, even when blank is present. -/
theorem duplicate_category_add_is_noop (s : Session) (ct name : String)
    (hname : pyStrip name ≠ "")
    (hdup : pyStrip name ∈
      (if ct = "Expense" then s.expense_categories else s.income_categories)) :
    addCategory s ct name = (s, some ("That category already exists.")) := by
  have h1 : ¬(name = "" ∨ pyStrip name = "") := by
    rintro (h | h)
    · apply hname
      rw [h]
      rfl
    · exact hname h
  unfold addCategory
  rw [if_neg h1, if_neg (not_not_intro hdup)]

/-- Witness for the amended C7: adding " Groceries " (a default
expense category, after stripping) to the initial session. -/
theorem duplicate_category_add_is_noop_example :
    (pyStrip (" Groceries ") ≠ "" ∧
      pyStrip (" Groceries ") ∈
        (if ("Expense" : String) = "Expense" then initialSession.expense_categories
         else initialSession.income_categories)) ∧
    addCategory initialSession ("Expense") (" Groceries ") =
      (initialSession, some ("That category already exists.")) :=
  ⟨⟨by decide, by decide⟩,
   duplicate_category_add_is_noop initialSession ("Expense") (" Groceries ")
     (by decide) (by decide)⟩

/-- C8 counterexample: on a blank (whitespace-only) name the add
handler leaves the session unchanged but reports no message at all -
the button guard skips silently, so no EmptyName error is surfaced. -/
theorem blank_category_add_is_silent :
    (addCategory initialSession ("Expense") ("   ")).1 = initialSession ∧
    ((addCategory initialSession ("Expense") ("   ")).2).isSome = false := by
  constructor
  · rfl
  · rfl

/-- C8 (amended): for every session, kind and name whose stripped form
is blank, the add handler returns the session unchanged with no
message: the blank name is rejected, but silently rather than with a
reported EmptyName error. -/
theorem blank_category_add_is_noop (s : Session) (ct name : String)
    (h : pyStrip name = "") :
    addCategory s ct name = (s, none) := by
  unfold addCategory
  rw [if_pos (Or.inr h)]

/-- Witness for the amended C8 at a concrete blank name. -/
theorem blank_category_add_is_noop_example :
    pyStrip ("  ") = "" ∧
    addCategory initialSession ("Income") ("  ") = (initialSession, none) :=
  ⟨by decide, blank_category_add_is_noop initialSession ("Income") ("  ") (by decide)⟩
